import Mathlib

/-!
A shallow embedding of the money-market contract
(src/contracts/market/src/contract.rs) together with theorems about its
epoch reconciliation, instantiation, registration, configuration update and
query operations.

Machine integers: `Uint256` quantities are embedded as `Nat`; `Decimal256`
(the cosmwasm-bignumber fixed-point decimal with 18 fractional digits) is
embedded as a `Nat` numerator of atomics with truncating multiplication and
division, matching the library's deterministic truncation.  Subtraction of
these unsigned types panics on underflow in Rust; every panic or error path
is embedded as an `Except.error`, which in CosmWasm aborts the message with
no state write.

External collaborators (receipt-token supply oracle, bank balance oracle,
interest-rate model, overseer target-deposit-rate query, distribution
model) are embedded as a record of per-call responses, `none` meaning the
query fails.  The helper functions called from contract.rs that live in
sibling modules of this crate (borrow.rs, deposit.rs and the moneymarket
querier) are not part of the provided source tree; they are modelled from
the specification, as marked on each definition.
-/

namespace Market

/-- One atomic unit of `Decimal256` is 10^-18 of a whole unit. -/
def DECIMAL_FRACTIONAL : Nat := 1000000000000000000

/-- cosmwasm-bignumber `Decimal256`: fixed point with 18 fractional digits,
embedded as the numerator of atomics. -/
structure Decimal256 where
  atomics : Nat
  deriving DecidableEq, Repr

def Decimal256.zero : Decimal256 := ⟨0⟩

def Decimal256.one : Decimal256 := ⟨DECIMAL_FRACTIONAL⟩

def Decimal256.add (a b : Decimal256) : Decimal256 := ⟨a.atomics + b.atomics⟩

/-- Truncating subtraction; in the Rust library subtraction below zero
panics, and every use embedded here is guarded so the truncation is exact. -/
def Decimal256.sub (a b : Decimal256) : Decimal256 := ⟨a.atomics - b.atomics⟩

def Decimal256.mul (a b : Decimal256) : Decimal256 :=
  ⟨a.atomics * b.atomics / DECIMAL_FRACTIONAL⟩

def Decimal256.div (a b : Decimal256) : Decimal256 :=
  ⟨a.atomics * DECIMAL_FRACTIONAL / b.atomics⟩

def Decimal256.from_uint256 (n : Nat) : Decimal256 := ⟨n * DECIMAL_FRACTIONAL⟩

/-- `Decimal256 * Uint256 -> Uint256` of cosmwasm-bignumber: multiply and
truncate to a whole integer amount. -/
def Decimal256.mulUint (a : Decimal256) (n : Nat) : Nat :=
  a.atomics * n / DECIMAL_FRACTIONAL

/-- Config record stored by the market contract (state.rs `Config`);
addresses are embedded as strings, the unset sentinel
`CanonicalAddr::from(vec![])` as the empty string. -/
structure Config where
  contract_addr : String
  owner_addr : String
  aterra_contract : String
  overseer_contract : String
  interest_model : String
  distribution_model : String
  collector_contract : String
  distributor_contract : String
  stable_denom : String
  max_borrow_factor : Decimal256
  deriving DecidableEq, Repr

/-- State record stored by the market contract (state.rs `State`). -/
structure State where
  total_liabilities : Decimal256
  total_reserves : Decimal256
  last_interest_updated_time : Nat
  last_reward_updated_time : Nat
  global_interest_index : Decimal256
  global_reward_index : Decimal256
  anc_emission_rate : Decimal256
  prev_aterra_supply : Nat
  prev_exchange_rate : Decimal256
  deriving DecidableEq, Repr

/-- Responses of the external collaborators for the (at most one) query each
operation makes of them; `none` is a failed query.  The interest-rate model
response is keyed by the address the query is sent to, so that an operation
that swaps the configured model handle can be seen to query the old one. -/
structure Oracles where
  aterra_supply : Option Nat
  balance : Option Nat
  borrow_rate : String → Option Decimal256
  target_deposit_rate : Option Decimal256
  anc_emission_rate : Option Decimal256

/-- Errors: `ContractError` constructors of error.rs that the embedded
operations reach, plus `generic` for `StdError::generic_err`, `queryFailed`
for a failed collaborator query and `overflowPanic` for an unsigned
subtraction underflow panic. -/
inductive ContractError where
  | unauthorized
  | initialFundsNotDeposited (amount : Nat) (denom : String)
  | generic (msg : String)
  | queryFailed
  | overflowPanic
  deriving DecidableEq, Repr

/-- A `BankMsg::Send` of a whole-unit amount of the stable denom.
Modelled from the spec: `deduct_tax` (moneymarket querier, not in the
provided source tree) is absent from the spec, whose collector-sink
transfer (section 4.4 step 7, section 6) carries the whole-unit reserve
amount itself. -/
structure BankMsg where
  to_address : String
  amount : Nat
  deriving DecidableEq, Repr

structure Coin where
  denom : String
  amount : Nat
  deriving DecidableEq, Repr

structure InstantiateMsg where
  owner_addr : String
  stable_denom : String
  aterra_code_id : Nat
  anc_emission_rate : Decimal256
  max_borrow_factor : Decimal256
  deriving DecidableEq, Repr

structure EpochStateResponse where
  exchange_rate : Decimal256
  aterra_supply : Nat
  deriving DecidableEq, Repr

/-- Modelled from the spec: `compute_exchange_rate_raw` lives in deposit.rs,
which is not in the provided source tree.  Spec section 4.2: with zero
receipt-token supply the rate is 1; otherwise it is
(balance + total_liabilities - total_reserves) / supply. -/
def compute_exchange_rate_raw (state : State) (aterra_supply balance : Nat) :
    Decimal256 :=
  if aterra_supply = 0 then Decimal256.one
  else
    Decimal256.div
      (((Decimal256.from_uint256 balance).add state.total_liabilities).sub
        state.total_reserves)
      (Decimal256.from_uint256 aterra_supply)

/-- Modelled from the spec: `compute_interest_raw` lives in borrow.rs, which
is not in the provided source tree.  Spec section 4.1: no-op when no time has
passed; otherwise multiply the interest index by (1 + rate * elapsed), add
the accrued interest to liabilities, redirect the part of the accrued
interest above what the target deposit rate accounts for into reserves
(section 9 leaves the exact split to this helper; the theorems below do not
depend on the split formula), refresh the cached exchange-rate snapshot
(the comment at contract.rs:569 records that this helper stores the current
exchange rate as `prev_exchange_rate`), and advance the interest mark. -/
def compute_interest_raw (state : State) (block_time : Nat)
    (balance aterra_supply : Nat) (borrow_rate target_deposit_rate : Decimal256) :
    State :=
  if block_time ≤ state.last_interest_updated_time then state
  else
    let passed_time := block_time - state.last_interest_updated_time
    let interest_factor := borrow_rate.mul (Decimal256.from_uint256 passed_time)
    let interest_accrued := state.total_liabilities.mul interest_factor
    let state1 :=
      { state with
        global_interest_index :=
          state.global_interest_index.mul (Decimal256.one.add interest_factor),
        total_liabilities := state.total_liabilities.add interest_accrued }
    let prev_deposits :=
      (Decimal256.from_uint256 state1.prev_aterra_supply).mul
        state1.prev_exchange_rate
    let target_yield :=
      (prev_deposits.mul target_deposit_rate).mul
        (Decimal256.from_uint256 passed_time)
    let reserve_portion := interest_accrued.sub target_yield
    let state2 :=
      { state1 with total_reserves := state1.total_reserves.add reserve_portion }
    { state2 with
      prev_aterra_supply := aterra_supply,
      prev_exchange_rate := compute_exchange_rate_raw state2 aterra_supply balance,
      last_interest_updated_time := block_time }

/-- Modelled from the spec: `compute_reward` lives in borrow.rs, which is not
in the provided source tree.  Spec section 4.3: elapsed times the emission
rate is distributed pro rata over outstanding liabilities when they are
positive; the reward mark always advances. -/
def compute_reward (state : State) (block_time : Nat) : State :=
  if block_time ≤ state.last_reward_updated_time then state
  else
    let passed_time := block_time - state.last_reward_updated_time
    let reward_accrued :=
      state.anc_emission_rate.mul (Decimal256.from_uint256 passed_time)
    let state1 :=
      if state.total_liabilities.atomics ≠ 0 then
        { state with
          global_reward_index :=
            state.global_reward_index.add
              (reward_accrued.div state.total_liabilities) }
      else state
    { state1 with last_reward_updated_time := block_time }

/-- Modelled from the spec: `compute_interest` lives in borrow.rs, which is
not in the provided source tree.  Spec section 4.1: the side-effecting
variant queries the receipt-token supply and the on-hand balance, optionally
deducts an amount, fetches the borrow rate from the configured interest
model and the target deposit rate from the overseer, and runs the raw
accrual. -/
def compute_interest (config : Config) (state : State) (orc : Oracles)
    (block_time : Nat) (deduct_amount : Option Nat) :
    Except ContractError State :=
  match orc.aterra_supply, orc.balance with
  | some aterra_supply, some queried_balance =>
    let d := deduct_amount.getD 0
    if queried_balance < d then .error .overflowPanic
    else
      let balance := queried_balance - d
      match orc.borrow_rate config.interest_model, orc.target_deposit_rate with
      | some rate, some target =>
        .ok (compute_interest_raw state block_time balance aterra_supply rate
              target)
      | _, _ => .error .queryFailed
  | _, _ => .error .queryFailed

def INITIAL_DEPOSIT_AMOUNT : Nat := 1000000

/-- contract.rs:40-45: amount of the stable denom found among the attached
funds (first matching coin, zero when absent). -/
def initial_deposit_of (funds : List Coin) (denom : String) : Nat :=
  ((funds.find? (fun c => c.denom == denom)).map Coin.amount).getD 0

/-- contract.rs:34-112 `instantiate`: requires exactly the initial deposit of
the stable denom among the attached funds, then stores the genesis Config
(all collaborator handles unset) and the genesis State. -/
def instantiate (contract_addr : String) (block_time : Nat)
    (funds : List Coin) (msg : InstantiateMsg) :
    Except ContractError (Config × State) :=
  if initial_deposit_of funds msg.stable_denom ≠ INITIAL_DEPOSIT_AMOUNT then
    .error (.initialFundsNotDeposited INITIAL_DEPOSIT_AMOUNT msg.stable_denom)
  else
    .ok
      ({ contract_addr := contract_addr, owner_addr := msg.owner_addr,
         aterra_contract := "", overseer_contract := "", interest_model := "",
         distribution_model := "", collector_contract := "",
         distributor_contract := "", stable_denom := msg.stable_denom,
         max_borrow_factor := msg.max_borrow_factor },
       { total_liabilities := Decimal256.zero,
         total_reserves := Decimal256.zero,
         last_interest_updated_time := block_time,
         last_reward_updated_time := block_time,
         global_interest_index := Decimal256.one,
         global_reward_index := Decimal256.zero,
         anc_emission_rate := msg.anc_emission_rate,
         prev_aterra_supply := 0,
         prev_exchange_rate := Decimal256.one })

/-- contract.rs:247-257 `register_aterra`: fills the receipt-token handle
once; fails when it is already set. -/
def register_aterra (config : Config) (token_addr : String) :
    Except ContractError Config :=
  if config.aterra_contract ≠ "" then .error .unauthorized
  else .ok { config with aterra_contract := token_addr }

/-- contract.rs:259-285 `register_contracts`: fills the five collaborator
handles once; fails when any of them is already set. -/
def register_contracts (config : Config)
    (overseer_contract interest_model distribution_model collector_contract
      distributor_contract : String) : Except ContractError Config :=
  if config.overseer_contract ≠ "" ∨ config.interest_model ≠ "" ∨
      config.distribution_model ≠ "" ∨ config.collector_contract ≠ "" ∨
      config.distributor_contract ≠ "" then
    .error .unauthorized
  else
    .ok { config with
          overseer_contract := overseer_contract,
          interest_model := interest_model,
          distribution_model := distribution_model,
          collector_contract := collector_contract,
          distributor_contract := distributor_contract }

/-- contract.rs:287-333 `update_config`: owner-only; optionally replaces the
owner; when a new interest model is supplied, first accrues interest with
the still-configured old model up to the current block time and persists the
accrued state, then replaces the handle; optionally replaces the
distribution model and the max borrow factor. -/
def update_config (config : Config) (state : State) (orc : Oracles)
    (sender : String) (block_time : Nat)
    (owner_addr interest_model distribution_model : Option String)
    (max_borrow_factor : Option Decimal256) :
    Except ContractError (Config × State) :=
  if sender ≠ config.owner_addr then .error .unauthorized
  else
    let config1 := match owner_addr with
      | some a => { config with owner_addr := a }
      | none => config
    let step : Except ContractError (Config × State) :=
      match interest_model with
      | some im =>
        match compute_interest config1 state orc block_time none with
        | .ok st => .ok ({ config1 with interest_model := im }, st)
        | .error e => .error e
      | none => .ok (config1, state)
    match step with
    | .ok (config2, state2) =>
      let config3 := match distribution_model with
        | some d => { config2 with distribution_model := d }
        | none => config2
      let config4 := match max_borrow_factor with
        | some m => { config3 with max_borrow_factor := m }
        | none => config3
      .ok (config4, state2)
    | .error e => .error e

/-- contract.rs:385-407: the reserve-skim step of `execute_epoch_operations`.
`total_reserves` truncated to whole units is transferred to the collector
sink only when non-zero and strictly below the on-hand balance, and exactly
that truncated amount is removed from the decimal reserve ledger. -/
def reserve_skim (config : Config) (state : State) (balance : Nat) :
    State × List BankMsg :=
  let total_reserves := state.total_reserves.mulUint 1
  if total_reserves ≠ 0 ∧ total_reserves < balance then
    ({ state with
       total_reserves :=
         state.total_reserves.sub (Decimal256.from_uint256 total_reserves) },
     [⟨config.collector_contract, total_reserves⟩])
  else (state, [])

/-- contract.rs:335-427 `execute_epoch_operations`: overseer-only; queries
the receipt-token supply and the on-hand balance, subtracts the
`distributed_interest` earmark (a larger earmark than the balance is an
unsigned underflow panic), queries the borrow rate from the interest model,
accrues interest, overwrites `prev_exchange_rate` with the rate computed
from the gross balance, accrues rewards, skims reserves, queries the
refreshed emission rate from the distribution model, and returns the state
that is stored together with the transfer messages. -/
def execute_epoch_operations (config : Config) (state : State) (orc : Oracles)
    (sender : String) (block_time : Nat)
    (deposit_rate target_deposit_rate threshold_deposit_rate : Decimal256)
    (distributed_interest : Nat) :
    Except ContractError (State × List BankMsg) :=
  if config.overseer_contract ≠ sender then .error .unauthorized
  else
    match orc.aterra_supply, orc.balance with
    | some aterra_supply, some queried_balance =>
      if queried_balance < distributed_interest then .error .overflowPanic
      else
        let balance := queried_balance - distributed_interest
        match orc.borrow_rate config.interest_model with
        | some borrow_rate =>
          let state1 := compute_interest_raw state block_time balance
            aterra_supply borrow_rate target_deposit_rate
          let state2 :=
            { state1 with
              prev_exchange_rate :=
                compute_exchange_rate_raw state1 aterra_supply
                  (balance + distributed_interest) }
          let state3 := compute_reward state2 block_time
          let skim := reserve_skim config state3 balance
          match orc.anc_emission_rate with
          | some emission_rate =>
            .ok ({ skim.1 with anc_emission_rate := emission_rate }, skim.2)
          | none => .error .queryFailed
        | none => .error .queryFailed
    | _, _ => .error .queryFailed

/-- Storage semantics of `execute_epoch_operations`: `store_state` at
contract.rs:420 is the only write and a returned error aborts the message
with no write, so the state on disk after the call (first component) is the
returned state on success and the pre-operation state on failure. -/
def epoch_step (config : Config) (stored : State) (orc : Oracles)
    (sender : String) (block_time : Nat)
    (deposit_rate target_deposit_rate threshold_deposit_rate : Decimal256)
    (distributed_interest : Nat) :
    State × Except ContractError (State × List BankMsg) :=
  match execute_epoch_operations config stored orc sender block_time
      deposit_rate target_deposit_rate threshold_deposit_rate
      distributed_interest with
  | .ok r => (r.1, .ok r)
  | .error e => (stored, .error e)

/-- contract.rs:482-522 `query_state`: rejects a requested time before either
high-water mark, then reports the state with interest and reward projected
to the requested time, without persisting anything. -/
def query_state (config : Config) (state : State) (orc : Oracles)
    (env_time : Nat) (block_time : Option Nat) : Except ContractError State :=
  let bt := block_time.getD env_time
  if bt < state.last_interest_updated_time then
    .error (.generic "block_height must bigger than last_interest_updated")
  else if bt < state.last_reward_updated_time then
    .error (.generic "block_height must bigger than last_reward_updated")
  else
    match compute_interest config state orc bt none with
    | .ok st => .ok (compute_reward st bt)
    | .error e => .error e

/-- contract.rs:524-578 `query_epoch_state`: queries supply and balance, nets
out `distributed_interest`, and when a block time is supplied (rejected if
before the interest mark) projects interest with the borrow rate from the
interest model and the overseer's target deposit rate, finally returning the
exchange rate computed from the gross balance, without persisting
anything. -/
def query_epoch_state (config : Config) (state : State) (orc : Oracles)
    (block_time : Option Nat) (distributed_interest : Option Nat) :
    Except ContractError EpochStateResponse :=
  let di := distributed_interest.getD 0
  match orc.aterra_supply, orc.balance with
  | some aterra_supply, some queried_balance =>
    if queried_balance < di then .error .overflowPanic
    else
      let balance := queried_balance - di
      match block_time with
      | some bt =>
        if bt < state.last_interest_updated_time then
          .error (.generic "block_height must bigger than last_interest_updated")
        else
          match orc.borrow_rate config.interest_model,
              orc.target_deposit_rate with
          | some rate, some target =>
            let state1 := compute_interest_raw state bt balance aterra_supply
              rate target
            .ok ⟨compute_exchange_rate_raw state1 aterra_supply (balance + di),
                 aterra_supply⟩
          | _, _ => .error .queryFailed
      | none =>
        .ok ⟨compute_exchange_rate_raw state aterra_supply (balance + di),
             aterra_supply⟩
  | _, _ => .error .queryFailed

/-! Helper lemmas shared by the claim theorems. -/

theorem reserve_skim_fst_prev (config : Config) (state : State) (balance : Nat) :
    (reserve_skim config state balance).1.prev_exchange_rate =
      state.prev_exchange_rate := by
  unfold reserve_skim
  dsimp only
  split <;> rfl

theorem compute_reward_prev (state : State) (block_time : Nat) :
    (compute_reward state block_time).prev_exchange_rate =
      state.prev_exchange_rate := by
  unfold compute_reward
  split
  · rfl
  · split <;> rfl

theorem execute_epoch_ok_inv (config : Config) (state : State) (orc : Oracles)
    (sender : String) (block_time : Nat)
    (dr tdr thr : Decimal256) (di : Nat)
    (r : State × List BankMsg)
    (h : execute_epoch_operations config state orc sender block_time dr tdr thr
          di = .ok r) :
    (∃ s, orc.aterra_supply = some s) ∧ (∃ b, orc.balance = some b) ∧
    (∃ rate, orc.borrow_rate config.interest_model = some rate) ∧
    (∃ e, orc.anc_emission_rate = some e) := by
  unfold execute_epoch_operations at h
  split at h
  · exact absurd h (by simp)
  · cases hs : orc.aterra_supply with
    | none => rw [hs] at h; exact absurd h (by simp)
    | some s =>
      cases hb : orc.balance with
      | none => rw [hs, hb] at h; exact absurd h (by simp)
      | some b =>
        rw [hs, hb] at h
        simp only at h
        split at h
        · exact absurd h (by simp)
        · cases hr : orc.borrow_rate config.interest_model with
          | none => rw [hr] at h; exact absurd h (by simp)
          | some rate =>
            rw [hr] at h
            simp only at h
            cases he : orc.anc_emission_rate with
            | none => rw [he] at h; exact absurd h (by simp)
            | some e =>
              exact ⟨⟨s, rfl⟩, ⟨b, rfl⟩, ⟨rate, rfl⟩, ⟨e, rfl⟩⟩

/-! Concrete fixtures used by the witness theorems. -/

def cfg0 : Config :=
  { contract_addr := "market", owner_addr := "owner",
    aterra_contract := "aterra", overseer_contract := "overseer",
    interest_model := "interest", distribution_model := "distribution",
    collector_contract := "collector", distributor_contract := "distributor",
    stable_denom := "uusd", max_borrow_factor := Decimal256.one }

def st0 : State :=
  { total_liabilities := Decimal256.from_uint256 1000000,
    total_reserves := Decimal256.from_uint256 3,
    last_interest_updated_time := 100, last_reward_updated_time := 100,
    global_interest_index := Decimal256.one,
    global_reward_index := Decimal256.zero,
    anc_emission_rate := Decimal256.one, prev_aterra_supply := 1000000,
    prev_exchange_rate := Decimal256.one }

def orc0 : Oracles :=
  { aterra_supply := some 1000000, balance := some 2000000,
    borrow_rate := fun _ => some Decimal256.zero,
    target_deposit_rate := some Decimal256.zero,
    anc_emission_rate := some Decimal256.one }

def orcFail : Oracles :=
  { aterra_supply := none, balance := some 2000000,
    borrow_rate := fun _ => some Decimal256.zero,
    target_deposit_rate := some Decimal256.zero,
    anc_emission_rate := some Decimal256.one }

/-- C2: `execute_epoch_operations` skims reserves only when the truncated
`total_reserves` is non-zero and the net on-hand balance strictly exceeds
it; then it removes exactly the truncated amount from `total_reserves`
(without underflow, so the reserve ledger never goes negative) and emits one
transfer of that amount to the collector sink; otherwise it transfers
nothing and leaves the state alone; every transferred amount is at most the
pre-skim on-hand balance. -/
theorem reserve_skim_bounded (config : Config) (state : State) (balance : Nat) :
    ((state.total_reserves.mulUint 1 ≠ 0 ∧
        state.total_reserves.mulUint 1 < balance) →
      ((reserve_skim config state balance).1.total_reserves.atomics =
          state.total_reserves.atomics -
            state.total_reserves.mulUint 1 * DECIMAL_FRACTIONAL ∧
        state.total_reserves.mulUint 1 * DECIMAL_FRACTIONAL ≤
          state.total_reserves.atomics ∧
        (reserve_skim config state balance).2 =
          [⟨config.collector_contract, state.total_reserves.mulUint 1⟩])) ∧
    (¬(state.total_reserves.mulUint 1 ≠ 0 ∧
        state.total_reserves.mulUint 1 < balance) →
      (reserve_skim config state balance).1 = state ∧
      (reserve_skim config state balance).2 = []) ∧
    (∀ m ∈ (reserve_skim config state balance).2, m.amount ≤ balance) := by
  unfold reserve_skim
  refine ⟨fun h => ?_, fun h => ?_, fun m hm => ?_⟩
  · rw [if_pos h]
    refine ⟨rfl, ?_, rfl⟩
    simpa [Decimal256.mulUint] using
      Nat.div_mul_le_self state.total_reserves.atomics DECIMAL_FRACTIONAL
  · rw [if_neg h]
    exact ⟨rfl, rfl⟩
  · by_cases h : state.total_reserves.mulUint 1 ≠ 0 ∧
        state.total_reserves.mulUint 1 < balance
    · rw [if_pos h] at hm
      simp only [List.mem_singleton] at hm
      subst hm
      exact Nat.le_of_lt h.2
    · rw [if_neg h] at hm
      simp at hm

theorem reserve_skim_bounded_witness :
    (reserve_skim cfg0 st0 5).2 = [⟨"collector", 3⟩] :=
  ((reserve_skim_bounded cfg0 st0 5).1 (by decide)).2.2

/-- C4: a caller different from the configured overseer makes
`execute_epoch_operations` fail with the authorization error, and the stored
state is unchanged. -/
theorem epoch_unauthorized (config : Config) (stored : State) (orc : Oracles)
    (sender : String) (block_time : Nat) (dr tdr thr : Decimal256) (di : Nat)
    (h : sender ≠ config.overseer_contract) :
    execute_epoch_operations config stored orc sender block_time dr tdr thr di =
      .error .unauthorized ∧
    (epoch_step config stored orc sender block_time dr tdr thr di).1 =
      stored := by
  have h2 : config.overseer_contract ≠ sender := fun he => h he.symm
  constructor
  · unfold execute_epoch_operations
    rw [if_pos h2]
  · unfold epoch_step execute_epoch_operations
    rw [if_pos h2]

theorem epoch_unauthorized_witness :
    execute_epoch_operations cfg0 st0 orc0 "mallory" 100 Decimal256.zero
        Decimal256.zero Decimal256.zero 0 = .error .unauthorized ∧
    (epoch_step cfg0 st0 orc0 "mallory" 100 Decimal256.zero Decimal256.zero
        Decimal256.zero 0).1 = st0 :=
  epoch_unauthorized cfg0 st0 orc0 "mallory" 100 Decimal256.zero Decimal256.zero
    Decimal256.zero 0 (by decide)

/-- C6: a successful instantiation stores a State with zero liabilities and
reserves, interest index 1, reward index 0, the supplied emission rate, zero
cached receipt-token supply, cached exchange rate 1, and both high-water
marks equal to the instantiation block time.  (Instantiation is the only
definition that builds a State from nothing; every other operation returns a
State derived from the stored one.) -/
theorem instantiate_initial_state (addr : String) (t : Nat) (funds : List Coin)
    (msg : InstantiateMsg)
    (h : initial_deposit_of funds msg.stable_denom = INITIAL_DEPOSIT_AMOUNT) :
    ∃ cfg, instantiate addr t funds msg = .ok (cfg,
      { total_liabilities := Decimal256.zero,
        total_reserves := Decimal256.zero,
        last_interest_updated_time := t, last_reward_updated_time := t,
        global_interest_index := Decimal256.one,
        global_reward_index := Decimal256.zero,
        anc_emission_rate := msg.anc_emission_rate,
        prev_aterra_supply := 0,
        prev_exchange_rate := Decimal256.one }) := by
  unfold instantiate
  rw [if_neg (by simp [h])]
  exact ⟨_, rfl⟩

def msg0 : InstantiateMsg :=
  { owner_addr := "owner", stable_denom := "uusd", aterra_code_id := 0,
    anc_emission_rate := Decimal256.one, max_borrow_factor := Decimal256.one }

theorem instantiate_initial_state_witness :
    initial_deposit_of [⟨"uusd", 1000000⟩] msg0.stable_denom =
        INITIAL_DEPOSIT_AMOUNT ∧
    ∃ cfg, instantiate "market" 7 [⟨"uusd", 1000000⟩] msg0 = .ok (cfg,
      { total_liabilities := Decimal256.zero,
        total_reserves := Decimal256.zero,
        last_interest_updated_time := 7, last_reward_updated_time := 7,
        global_interest_index := Decimal256.one,
        global_reward_index := Decimal256.zero,
        anc_emission_rate := msg0.anc_emission_rate,
        prev_aterra_supply := 0,
        prev_exchange_rate := Decimal256.one }) :=
  ⟨by decide, instantiate_initial_state "market" 7 [⟨"uusd", 1000000⟩] msg0
    (by decide)⟩

/-- C7: instantiation leaves all six collaborator handles unset;
`register_contracts` fails whenever any of its five handles is already set
and `register_aterra` fails whenever the receipt-token handle is already
set, so each handle can be filled at most once. -/
theorem collaborator_handles_register_once :
    (∀ addr t funds msg cfg st,
      instantiate addr t funds msg = Except.ok (cfg, st) →
        cfg.aterra_contract = "" ∧ cfg.overseer_contract = "" ∧
        cfg.interest_model = "" ∧ cfg.distribution_model = "" ∧
        cfg.collector_contract = "" ∧ cfg.distributor_contract = "") ∧
    (∀ cfg ov im dm cc dc,
      (cfg.overseer_contract ≠ "" ∨ cfg.interest_model ≠ "" ∨
        cfg.distribution_model ≠ "" ∨ cfg.collector_contract ≠ "" ∨
        cfg.distributor_contract ≠ "") →
      register_contracts cfg ov im dm cc dc = .error .unauthorized) ∧
    (∀ cfg tok, cfg.aterra_contract ≠ "" →
      register_aterra cfg tok = .error .unauthorized) := by
  refine ⟨fun addr t funds msg cfg st h => ?_, fun cfg ov im dm cc dc h => ?_,
    fun cfg tok h => ?_⟩
  · unfold instantiate at h
    split at h
    · exact absurd h (by simp)
    · simp only [Except.ok.injEq, Prod.mk.injEq] at h
      rw [← h.1]
      exact ⟨rfl, rfl, rfl, rfl, rfl, rfl⟩
  · unfold register_contracts
    rw [if_pos h]
  · unfold register_aterra
    rw [if_pos h]

theorem collaborator_handles_register_once_witness :
    register_contracts cfg0 "a" "b" "c" "d" "e" = .error .unauthorized ∧
    register_aterra cfg0 "a" = .error .unauthorized :=
  ⟨collaborator_handles_register_once.2.1 cfg0 "a" "b" "c" "d" "e"
      (Or.inl (by decide)),
   collaborator_handles_register_once.2.2 cfg0 "a" (by decide)⟩

/-- C9: instantiation succeeds exactly when the attached funds carry
1,000,000 units of the declared stable denomination; any other amount
(including zero or absence) yields the initial-funds error, before any
Config or State is produced. -/
theorem instantiate_requires_initial_deposit (addr : String) (t : Nat)
    (funds : List Coin) (msg : InstantiateMsg) :
    (initial_deposit_of funds msg.stable_denom = INITIAL_DEPOSIT_AMOUNT ↔
      ∃ r, instantiate addr t funds msg = .ok r) ∧
    (initial_deposit_of funds msg.stable_denom ≠ INITIAL_DEPOSIT_AMOUNT →
      instantiate addr t funds msg =
        .error (.initialFundsNotDeposited INITIAL_DEPOSIT_AMOUNT
          msg.stable_denom)) := by
  unfold instantiate
  by_cases h : initial_deposit_of funds msg.stable_denom =
      INITIAL_DEPOSIT_AMOUNT
  · rw [if_neg (by simp [h])]
    exact ⟨⟨fun _ => ⟨_, rfl⟩, fun _ => h⟩, fun hne => absurd h hne⟩
  · rw [if_pos h]
    refine ⟨⟨fun hd => absurd hd h, fun ⟨r, hr⟩ => ?_⟩, fun _ => rfl⟩
    exact absurd hr (by simp)

theorem instantiate_requires_initial_deposit_witness :
    instantiate "market" 7 [] msg0 =
      .error (.initialFundsNotDeposited INITIAL_DEPOSIT_AMOUNT "uusd") :=
  (instantiate_requires_initial_deposit "market" 7 [] msg0).2 (by decide)

/-- C3: if any of the four external queries made by
`execute_epoch_operations` (receipt-token supply, balance, borrow-rate
model, distribution model) fails, the operation returns no successful
result, and the stored state after the call equals the pre-operation state;
a successful state is persisted only by the single `store_state` at the end
of a fully successful run (the `epoch_step` storage semantics). -/
theorem epoch_query_failure_atomic (config : Config) (stored : State)
    (orc : Oracles) (sender : String) (block_time : Nat)
    (dr tdr thr : Decimal256) (di : Nat)
    (h : orc.aterra_supply = none ∨ orc.balance = none ∨
         orc.borrow_rate config.interest_model = none ∨
         orc.anc_emission_rate = none) :
    (∀ r, execute_epoch_operations config stored orc sender block_time dr tdr
        thr di ≠ .ok r) ∧
    (epoch_step config stored orc sender block_time dr tdr thr di).1 =
      stored := by
  have key : ∀ r, execute_epoch_operations config stored orc sender block_time
      dr tdr thr di ≠ .ok r := by
    intro r hr
    obtain ⟨⟨s, hs⟩, ⟨b, hb⟩, ⟨rate, hrt⟩, ⟨e, he⟩⟩ :=
      execute_epoch_ok_inv config stored orc sender block_time dr tdr thr di r
        hr
    rcases h with h | h | h | h <;> simp_all
  refine ⟨key, ?_⟩
  unfold epoch_step
  cases hE : execute_epoch_operations config stored orc sender block_time dr
      tdr thr di with
  | ok r => exact absurd hE (key r)
  | error e => rfl

theorem epoch_query_failure_atomic_witness :
    (∀ r, execute_epoch_operations cfg0 st0 orcFail "overseer" 200
        Decimal256.zero Decimal256.zero Decimal256.zero 0 ≠ .ok r) ∧
    (epoch_step cfg0 st0 orcFail "overseer" 200 Decimal256.zero Decimal256.zero
        Decimal256.zero 0).1 = st0 :=
  epoch_query_failure_atomic cfg0 st0 orcFail "overseer" 200 Decimal256.zero
    Decimal256.zero Decimal256.zero 0 (Or.inl rfl)

/-- C8: `query_state` with a requested time strictly before either
high-water mark fails with the corresponding temporal-ordering error rather
than clamping, and `query_epoch_state` (its supply and balance reads
succeeding) with a supplied time strictly before the interest mark fails
with the temporal-ordering error; both are read-only. -/
theorem query_temporal_rejection :
    (∀ cfg st orc envT bt,
      (bt < st.last_interest_updated_time ∨
        bt < st.last_reward_updated_time) →
      query_state cfg st orc envT (some bt) =
          .error (.generic "block_height must bigger than last_interest_updated") ∨
      query_state cfg st orc envT (some bt) =
          .error (.generic "block_height must bigger than last_reward_updated")) ∧
    (∀ cfg st orc bt di s b, orc.aterra_supply = some s →
      orc.balance = some b → di ≤ b →
      bt < st.last_interest_updated_time →
      query_epoch_state cfg st orc (some bt) (some di) =
        .error (.generic "block_height must bigger than last_interest_updated")) := by
  constructor
  · intro cfg st orc envT bt h
    unfold query_state
    simp only [Option.getD_some]
    by_cases h1 : bt < st.last_interest_updated_time
    · left
      rw [if_pos h1]
    · right
      rcases h with h | h
      · exact absurd h h1
      · rw [if_neg h1, if_pos h]
  · intro cfg st orc bt di s b hs hb hdi hbt
    unfold query_epoch_state
    rw [hs, hb]
    simp only [Option.getD_some]
    rw [if_neg (Nat.not_lt.mpr hdi), if_pos hbt]

theorem query_temporal_rejection_witness :
    (query_state cfg0 st0 orc0 0 (some 50) =
        .error (.generic "block_height must bigger than last_interest_updated") ∨
      query_state cfg0 st0 orc0 0 (some 50) =
        .error (.generic "block_height must bigger than last_reward_updated")) ∧
    query_epoch_state cfg0 st0 orc0 (some 50) (some 0) =
      .error (.generic "block_height must bigger than last_interest_updated") :=
  ⟨query_temporal_rejection.1 cfg0 st0 orc0 0 50 (Or.inl (by decide)),
   query_temporal_rejection.2 cfg0 st0 orc0 50 0 1000000 2000000 rfl rfl
     (by decide) (by decide)⟩

/-- C10: when the owner supplies a new interest model, `update_config`
persists exactly the state accrued by `compute_interest` run against the
old configuration (so the borrow rate is the old model's response) up to the
current block time, and only then carries the new handle in the returned
config; when no new interest model is supplied, the returned state is the
stored state unchanged. -/
theorem update_config_old_model (cfg : Config) (st stAcc : State)
    (orc : Oracles) (T : Nat) (oa dm : Option String) (im : String)
    (mbf : Option Decimal256)
    (hacc : compute_interest cfg st orc T none = .ok stAcc) :
    (∃ cfgN, update_config cfg st orc cfg.owner_addr T oa (some im) dm mbf =
        .ok (cfgN, stAcc) ∧ cfgN.interest_model = im) ∧
    (∀ cfgN stN, update_config cfg st orc cfg.owner_addr T oa none dm mbf =
        .ok (cfgN, stN) → stN = st) := by
  have hint : ∀ a : String,
      compute_interest { cfg with owner_addr := a } st orc T none =
        compute_interest cfg st orc T none := by
    intro a
    unfold compute_interest
    rfl
  constructor
  · unfold update_config
    rw [if_neg (by simp)]
    cases oa with
    | none =>
      simp only
      rw [hacc]
      cases dm with
      | none =>
        cases mbf with
        | none => exact ⟨_, rfl, rfl⟩
        | some m => exact ⟨_, rfl, rfl⟩
      | some d =>
        cases mbf with
        | none => exact ⟨_, rfl, rfl⟩
        | some m => exact ⟨_, rfl, rfl⟩
    | some a =>
      simp only
      rw [hint a, hacc]
      cases dm with
      | none =>
        cases mbf with
        | none => exact ⟨_, rfl, rfl⟩
        | some m => exact ⟨_, rfl, rfl⟩
      | some d =>
        cases mbf with
        | none => exact ⟨_, rfl, rfl⟩
        | some m => exact ⟨_, rfl, rfl⟩
  · intro cfgN stN hN
    unfold update_config at hN
    rw [if_neg (by simp)] at hN
    cases oa <;> cases dm <;> cases mbf <;>
      simp only [Except.ok.injEq, Prod.mk.injEq] at hN <;>
      exact hN.2.symm

def orcIdle : Oracles :=
  { aterra_supply := some 1000000, balance := some 2000000,
    borrow_rate := fun _ => some Decimal256.zero,
    target_deposit_rate := some Decimal256.zero,
    anc_emission_rate := some Decimal256.one }

theorem update_config_old_model_witness :
    compute_interest cfg0 st0 orcIdle 100 none = .ok st0 ∧
    ((∃ cfgN, update_config cfg0 st0 orcIdle cfg0.owner_addr 100 none
        (some "interest2") none none = .ok (cfgN, st0) ∧
        cfgN.interest_model = "interest2") ∧
     (∀ cfgN stN, update_config cfg0 st0 orcIdle cfg0.owner_addr 100 none none
        none none = .ok (cfgN, stN) → stN = st0)) :=
  ⟨rfl, update_config_old_model cfg0 st0 st0 orcIdle 100 none none "interest2"
    none rfl⟩

/-- C1: with the same stored state, the same oracle responses (supply,
balance, borrow rate) and an overseer target-deposit-rate response equal to
the `target_deposit_rate` argument, the read-only epoch-state query at a
future time T with a given `distributed_interest` succeeds and returns
exactly the exchange rate that `execute_epoch_operations` invoked at time T
with the same `distributed_interest` computes and commits as
`prev_exchange_rate`. -/
theorem epoch_query_commit_agree (cfg : Config) (st : State) (orc : Oracles)
    (T di s b : Nat) (dr thr r tdr e : Decimal256)
    (hs : orc.aterra_supply = some s) (hb : orc.balance = some b)
    (hr : orc.borrow_rate cfg.interest_model = some r)
    (ht : orc.target_deposit_rate = some tdr)
    (he : orc.anc_emission_rate = some e)
    (hdi : di ≤ b) (hT : st.last_interest_updated_time ≤ T) :
    (∃ q, query_epoch_state cfg st orc (some T) (some di) = .ok q) ∧
    Except.map (fun p => (p.1).prev_exchange_rate)
        (execute_epoch_operations cfg st orc cfg.overseer_contract T dr tdr
          thr di) =
      Except.map EpochStateResponse.exchange_rate
        (query_epoch_state cfg st orc (some T) (some di)) := by
  have hq : query_epoch_state cfg st orc (some T) (some di) =
      .ok ⟨compute_exchange_rate_raw
            (compute_interest_raw st T (b - di) s r tdr) s (b - di + di),
          s⟩ := by
    unfold query_epoch_state
    rw [hs, hb]
    simp only [Option.getD_some]
    rw [if_neg (Nat.not_lt.mpr hdi), if_neg (Nat.not_lt.mpr hT), hr, ht]
  have hx : Except.map (fun p => (p.1).prev_exchange_rate)
      (execute_epoch_operations cfg st orc cfg.overseer_contract T dr tdr thr
        di) =
      .ok (compute_exchange_rate_raw
            (compute_interest_raw st T (b - di) s r tdr) s (b - di + di)) := by
    unfold execute_epoch_operations
    rw [if_neg (by simp), hs, hb]
    simp only
    rw [if_neg (Nat.not_lt.mpr hdi), hr, he]
    simp only [Except.map, reserve_skim_fst_prev, compute_reward_prev]
  exact ⟨⟨_, hq⟩, by rw [hx, hq]; rfl⟩

theorem epoch_query_commit_agree_witness :
    (∃ q, query_epoch_state cfg0 st0 orc0 (some 100) (some 0) = .ok q) ∧
    Except.map (fun p => (p.1).prev_exchange_rate)
        (execute_epoch_operations cfg0 st0 orc0 cfg0.overseer_contract 100
          Decimal256.zero Decimal256.zero Decimal256.zero 0) =
      Except.map EpochStateResponse.exchange_rate
        (query_epoch_state cfg0 st0 orc0 (some 100) (some 0)) :=
  epoch_query_commit_agree cfg0 st0 orc0 100 0 1000000 2000000 Decimal256.zero
    Decimal256.zero Decimal256.zero Decimal256.zero Decimal256.one rfl rfl rfl
    rfl rfl (by decide) (by decide)

/-- C5: the exchange rate that a successful `execute_epoch_operations`
commits as `prev_exchange_rate` is computed after interest accrual from the
gross queried balance (the net balance plus the `distributed_interest` that
was subtracted from it) and the current receipt-token supply. -/
theorem epoch_commit_rate_gross_balance (cfg : Config) (st : State)
    (orc : Oracles) (T di s b : Nat) (dr thr r tdr e : Decimal256)
    (hs : orc.aterra_supply = some s) (hb : orc.balance = some b)
    (hr : orc.borrow_rate cfg.interest_model = some r)
    (he : orc.anc_emission_rate = some e) (hdi : di ≤ b) :
    Except.map (fun p => (p.1).prev_exchange_rate)
        (execute_epoch_operations cfg st orc cfg.overseer_contract T dr tdr
          thr di) =
      .ok (compute_exchange_rate_raw
            (compute_interest_raw st T (b - di) s r tdr) s b) := by
  unfold execute_epoch_operations
  rw [if_neg (by simp), hs, hb]
  simp only
  rw [if_neg (Nat.not_lt.mpr hdi), hr, he]
  simp only [Except.map, reserve_skim_fst_prev, compute_reward_prev]
  rw [Nat.sub_add_cancel hdi]

theorem epoch_commit_rate_gross_balance_witness :
    Except.map (fun p => (p.1).prev_exchange_rate)
        (execute_epoch_operations cfg0 st0 orc0 cfg0.overseer_contract 150
          Decimal256.zero Decimal256.one Decimal256.zero 500) =
      .ok (compute_exchange_rate_raw
            (compute_interest_raw st0 150 (2000000 - 500) 1000000
              Decimal256.zero Decimal256.one) 1000000 2000000) :=
  epoch_commit_rate_gross_balance cfg0 st0 orc0 150 500 1000000 2000000
    Decimal256.zero Decimal256.zero Decimal256.zero Decimal256.one
    Decimal256.one rfl rfl rfl rfl (by decide)

end Market
